import Mathlib

/-!
Verification development for the scraperApp frontend (Vite + vanilla JS).

The repository is a client-side search UI: `src/apiModel.js` (fetch wrapper),
`src/resultsBuilder.js` (header, pagination, product grid), `src/CardBuilder.js`
(one product card), `src/main.js` (page wiring).  The development below is a
shallow embedding of the relevant source functions:

* JavaScript dynamic values are modelled by `JSAtom` / `JSValue`, with numbers
  as `JSNumber` (rationals plus the three non-finite values `NaN`, `Infinity`
  and `-Infinity`).  Coercions (`Number(x)`, truthiness, `??`, `||`,
  `Math.max`, comparisons) are modelled explicitly after the ECMAScript rules
  on this value domain; `Number(string)` is modelled for whitespace, sign,
  `Infinity` and decimal literals (hexadecimal and exponent forms, which the
  program never produces, fall to `NaN`).
* Pagination (`ResultsUIBuilder.#buildPageList`) works on plain integers, so
  it is embedded over `Int`.
* DOM production is modelled by plain data structures recording what the code
  writes into the produced elements.
-/

/-- A JavaScript number: `NaN`, `Infinity`, `-Infinity`, or a finite value
(modelled as a rational, which covers every value the program manipulates). -/
inductive JSNumber where
  | nan
  | inf
  | neginf
  | fin (q : ℚ)
deriving DecidableEq, Repr

/-- A primitive JavaScript value; `obj` stands for an opaque non-array object
(the program never inspects object contents where this model is used). -/
inductive JSAtom where
  | undef
  | null
  | bool (b : Bool)
  | num (x : JSNumber)
  | str (s : String)
  | obj
deriving DecidableEq, Repr

/-- A JavaScript value as passed to the fluent setters: a primitive, or an
array of primitives (the program only ever stores or replaces whole arrays,
never inspects nesting, so array elements are primitives here). -/
inductive JSValue where
  | atom (a : JSAtom)
  | arr (elems : List JSAtom)
deriving DecidableEq, Repr

/-- The whitespace predicate used by `String.prototype.trim` (restricted to
the ASCII whitespace the program can encounter). -/
def jsWhitespace (c : Char) : Bool := c.isWhitespace

/-- Drop leading whitespace from a character list. -/
def trimLeftChars (l : List Char) : List Char := l.dropWhile jsWhitespace

/-- Drop trailing whitespace from a character list. -/
def trimRightChars (l : List Char) : List Char :=
  (l.reverse.dropWhile jsWhitespace).reverse

/-- Model of JavaScript `String.prototype.trim()`. -/
def jsTrim (s : String) : String :=
  String.mk (trimRightChars (trimLeftChars s.data))

/-- Numeric value of a decimal-digit character. -/
def digitVal (c : Char) : Nat := c.toNat - 48

/-- Accumulate the value of the leading run of decimal digits, stopping at the
first non-digit (the semantics of `parseInt` digit consumption). -/
def digitsPrefixNat : List Char → Nat → Nat
  | [], acc => acc
  | c :: cs, acc => if c.isDigit then digitsPrefixNat cs (10 * acc + digitVal c) else acc

/-- Value of the longest leading digit run; `none` when there is no leading
digit (which `parseInt` reports as `NaN`). -/
def parseIntCore (l : List Char) : Option Nat :=
  match l with
  | c :: _ => if c.isDigit then some (digitsPrefixNat l 0) else none
  | [] => none

/-- Model of JavaScript `parseInt(s)` (radix 10): skip whitespace, optional
sign, then the longest leading digit run; `none` models `NaN`. -/
def parseIntJS (s : String) : Option Int :=
  match (jsTrim s).data with
  | '-' :: rest => (parseIntCore rest).map (fun n => -(n : Int))
  | '+' :: rest => (parseIntCore rest).map (fun n => (n : Int))
  | l => (parseIntCore l).map (fun n => (n : Int))

/-- Value of an all-digit character list. -/
def natOfDigits (l : List Char) : Nat := digitsPrefixNat l 0

/-- An unsigned decimal numeric literal: digits, optionally a dot and more
digits; `none` when the characters are not such a literal.  The value
`ip.fp` is assembled as a single fraction (`Rat` addition is irreducible in
this toolchain, so the sum is folded into one `mkRat`). -/
def decLiteral (l : List Char) : Option ℚ :=
  let ip := l.takeWhile Char.isDigit
  let rest := l.dropWhile Char.isDigit
  match rest with
  | [] => if ip.isEmpty then none else some (mkRat (natOfDigits ip) 1)
  | '.' :: fp =>
      if fp.all Char.isDigit && !(ip.isEmpty && fp.isEmpty) then
        some (mkRat (natOfDigits ip * 10 ^ fp.length + natOfDigits fp) (10 ^ fp.length))
      else none
  | _ => none

/-- Negate a JavaScript number. -/
def JSNumber.negate : JSNumber → JSNumber
  | .nan => .nan
  | .inf => .neginf
  | .neginf => .inf
  | .fin q => .fin (-q)

/-- The unsigned part of ECMAScript string-to-number conversion. -/
def strToNumberPos (l : List Char) : JSNumber :=
  if l = "Infinity".data then .inf
  else
    match decLiteral l with
    | some q => .fin q
    | none => .nan

/-- Model of ECMAScript `Number(string)`: trim, empty means `0`, optional
sign, `Infinity`, or a decimal literal; everything else is `NaN`. -/
def strToNumber (s : String) : JSNumber :=
  match (jsTrim s).data with
  | [] => .fin 0
  | '+' :: r => strToNumberPos r
  | '-' :: r => (strToNumberPos r).negate
  | l => strToNumberPos l

/-- Model of ECMAScript `Number(value)` on the embedded value domain.  A
one-element array converts through its element string, matching
`Number([x]) = Number(String(x))`; longer arrays stringify with a comma and
convert to `NaN`. -/
def jsToNumber : JSValue → JSNumber
  | .atom .undef => .nan
  | .atom .null => .fin 0
  | .atom (.bool b) => .fin (if b then 1 else 0)
  | .atom (.num x) => x
  | .atom (.str s) => strToNumber s
  | .atom .obj => .nan
  | .arr [] => .fin 0
  | .arr [a] =>
      match a with
      | .undef => .fin 0
      | .null => .fin 0
      | .bool _ => .nan
      | .num x => x
      | .str s => strToNumber s
      | .obj => .nan
  | .arr (_ :: _ :: _) => .nan

/-- JavaScript truthiness of a number (`NaN` and `0` are falsy). -/
def JSNumber.truthy : JSNumber → Bool
  | .nan => false
  | .fin q => decide (q ≠ 0)
  | _ => true

/-- Model of `x || y` when both operands are numbers. -/
def numOr (x y : JSNumber) : JSNumber := if x.truthy then x else y

/-- Model of `Math.max(x, y)`: `NaN` is absorbing, otherwise the larger. -/
def jsMax (x y : JSNumber) : JSNumber :=
  match x, y with
  | .nan, _ => .nan
  | _, .nan => .nan
  | .inf, _ => .inf
  | _, .inf => .inf
  | .neginf, b => b
  | a, .neginf => a
  | .fin a, .fin b => .fin (max a b)

/-- JavaScript `x <= y` on numbers (`false` whenever `NaN` is involved). -/
def JSNumber.leB : JSNumber → JSNumber → Bool
  | .nan, _ => false
  | _, .nan => false
  | .neginf, _ => true
  | _, .inf => true
  | .inf, _ => false
  | _, .neginf => false
  | .fin a, .fin b => decide (a ≤ b)

/-- Model of `Number.isFinite`. -/
def JSNumber.isFiniteB : JSNumber → Bool
  | .fin _ => true
  | _ => false

/-- Whether a value is a JavaScript string. -/
def isStringJS : JSValue → Bool
  | .atom (.str _) => true
  | _ => false

/-!
## Pagination window calculator

`ResultsUIBuilder.#buildPageList(current, total, neighbors = 1)` from
`src/resultsBuilder.js`.  The JS code pushes two different record shapes for
interactive items: the Prev/Next controls carry a `disabled` field and the
numbered items carry a `current` field (the respectively missing field reads
as `undefined`, i.e. falsy).  The embedding mirrors the two shapes with two
constructors.
-/

/-- One logical pagination item, as produced by `#buildPageList`:
`control` is a Prev/Next item (`{type: "page", page, label, disabled}`),
`numbered` a numeric page item (`{type: "page", page, label, current}`),
`ellipsis` the non-interactive gap marker. -/
inductive PageItem where
  | control (target : Int) (label : String) (disabled : Bool)
  | numbered (target : Int) (label : String) (current : Bool)
  | ellipsis
deriving DecidableEq, Repr

/-- The local `clamp` helper of `#buildPageList`:
`(n) => Math.max(1, Math.min(total, n))`. -/
def jsClamp (total n : Int) : Int := max 1 (min total n)

/-- The integer range `[a, a+1, ..., b]` (empty when `b < a`), as produced by
the `for (let p = start; p <= end; p++)` loop. -/
def intRange (a b : Int) : List Int :=
  (List.range (b + 1 - a).toNat).map (fun (i : Nat) => a + (i : Int))

/-- Embeds `ResultsUIBuilder.#buildPageList(current, total, neighbors)` from
`src/resultsBuilder.js` (the JS default `neighbors = 1` is passed explicitly
at call sites of this model). -/
def buildPageList (current total neighbors : Int) : List PageItem :=
  let start := max 2 (current - neighbors)
  let stop := min (total - 1) (current + neighbors)
  [PageItem.control (jsClamp total (current - 1)) "Prev" (decide (current ≤ 1)),
   PageItem.numbered 1 "1" (decide (current = 1))]
  ++ (if 2 < start then [PageItem.ellipsis] else [])
  ++ (intRange start stop).map (fun p => PageItem.numbered p (toString p) (decide (p = current)))
  ++ (if stop < total - 1 then [PageItem.ellipsis] else [])
  ++ (if 1 < total then [PageItem.numbered total (toString total) (decide (current = total))] else [])
  ++ [PageItem.control (jsClamp total (current + 1)) "Next" (decide (current ≥ total))]

/-- The clamp written in the specification: `clamp(v, lo, hi)`. -/
def specClamp (v lo hi : Int) : Int := min hi (max lo v)

/-- Modelled from the specification text of the pagination algorithm (spec
section 4.1, steps 1 to 8), written independently of the code: Prev with
target `clamp(current - 1, 1, total)` disabled iff `current ≤ 1`; page 1
current iff `current = 1`; an ellipsis iff `max(2, current - neighbors) > 2`;
the window `[start, end]`; an ellipsis iff
`min(total - 1, current + neighbors) < total - 1`; page `total` iff
`total > 1`; Next with target `clamp(current + 1, 1, total)` disabled iff
`current ≥ total`. -/
def specWindow (current total neighbors : Int) : List PageItem :=
  [PageItem.control (specClamp (current - 1) 1 total) "Prev" (decide (current ≤ 1)),
   PageItem.numbered 1 "1" (decide (current = 1))]
  ++ (if 2 < max 2 (current - neighbors) then [PageItem.ellipsis] else [])
  ++ (intRange (max 2 (current - neighbors)) (min (total - 1) (current + neighbors))).map
       (fun p => PageItem.numbered p (toString p) (decide (p = current)))
  ++ (if min (total - 1) (current + neighbors) < total - 1 then [PageItem.ellipsis] else [])
  ++ (if 1 < total then [PageItem.numbered total (toString total) (decide (current = total))] else [])
  ++ [PageItem.control (specClamp (current + 1) 1 total) "Next" (decide (current ≥ total))]

/-- Targets of the numbered (non-control, non-ellipsis) page items. -/
def numberedTargets (items : List PageItem) : List Int :=
  items.filterMap (fun it =>
    match it with
    | .numbered t _ _ => some t
    | _ => none)

/-!
## CardBuilder (src/CardBuilder.js)

The card DOM node is modelled by a record of what `build()` writes into it.
The builder field `rating` is a JS number or nullish; the constructor sets it
to the number `0` (`this.rating = 0`), modelled as `some 0` with `none`
standing for null/undefined.
-/

/-- The full-star icon asset (`this._FULL`). -/
def starFullSrc : String := "./star.svg"

/-- The half-star icon asset (`this._HALF`). -/
def starHalfSrc : String := "./star-half.svg"

/-- The mutable state of a `CardBuilder` instance. -/
structure CardBuilder where
  imageSrc : String
  description : String
  stars : List JSAtom
  rating : Option ℚ
  reviewCount : ℚ
  link : String
deriving DecidableEq, Repr

/-- The `CardBuilder` constructor (note `this.rating = 0`). -/
def CardBuilder.init : CardBuilder :=
  { imageSrc := "", description := "", stars := [], rating := some 0,
    reviewCount := 0, link := "#" }

/-- `setImage` -/
def CardBuilder.setImage (b : CardBuilder) (src : String) : CardBuilder :=
  { b with imageSrc := src }

/-- `setDescription` -/
def CardBuilder.setDescription (b : CardBuilder) (desc : String) : CardBuilder :=
  { b with description := desc }

/-- Embeds `CardBuilder.setStars(starArrayOrRating)`: an array is stored
verbatim; otherwise the argument is coerced with `Number`; a non-finite
result clears the stars and bails (without touching `rating`); a finite
rating `r` is stored, clamped to `[0, 5]`, and expanded into
`Math.floor` full-star icons plus a half-star icon when the clamped value is
below 5 and differs from its floor. -/
def CardBuilder.setStars (b : CardBuilder) (starArrayOrRating : JSValue) : CardBuilder :=
  match starArrayOrRating with
  | .arr elems => { b with stars := elems }
  | v =>
    match jsToNumber v with
    | .fin rating =>
        let r := min 5 (max 0 rating)
        let full := (Rat.floor r).toNat
        let hasHalf := decide (r < 5) && decide (¬ r = ((Rat.floor r : Int) : ℚ))
        { b with rating := some rating,
                 stars := List.replicate full (.str starFullSrc)
                   ++ (if hasHalf then [.str starHalfSrc] else []) }
    | _ => { b with stars := [] }

/-- `setRating` (stores its argument verbatim; in this program the argument
is always `Number(p.rating)`, a number). -/
def CardBuilder.setRating (b : CardBuilder) (rating : Option ℚ) : CardBuilder :=
  { b with rating := rating }

/-- `setReviewCount` -/
def CardBuilder.setReviewCount (b : CardBuilder) (count : ℚ) : CardBuilder :=
  { b with reviewCount := count }

/-- `setLink` -/
def CardBuilder.setLink (b : CardBuilder) (link : String) : CardBuilder :=
  { b with link := link }

/-- What `CardBuilder.build()` writes into the produced card element.
`score` is the stars-plus-rating block (star icon list and the displayed
rating value) and `reviewsBlock` the bubble-plus-count block; both are
produced exactly when `this.rating != null`.  `asin` is the
`el.dataset.asin` annotation added by the caller. -/
structure Card where
  imageSrc : String
  imageAlt : String
  description : String
  score : Option (List JSAtom × ℚ)
  reviewsBlock : Option ℚ
  link : String
  asin : String
deriving DecidableEq, Repr

/-- Embeds `CardBuilder.build()` from `src/CardBuilder.js`: image,
description, then — only under the guard `this.rating != null` — the score
block (star icons and the `(rating)` text) and the reviews block, then the
divider and link. -/
def CardBuilder.build (b : CardBuilder) : Card :=
  { imageSrc := b.imageSrc
    imageAlt := "product image " ++ b.description
    description := b.description
    score :=
      match b.rating with
      | some q => some (b.stars, q)
      | none => none
    reviewsBlock :=
      match b.rating with
      | some _ => some b.reviewCount
      | none => none
    link := b.link
    asin := "" }

/-!
## ResultsUIBuilder card rendering (src/resultsBuilder.js)
-/

/-- One product record from the API response (all fields optional; `rating`
is a number or null). -/
structure ProductRecord where
  title : Option String
  image : Option String
  url : Option String
  asin : Option String
  rating : Option ℚ
  reviews : Option ℚ
deriving DecidableEq, Repr

/-- JavaScript `o || dflt` for an optional string (absent and the empty
string are falsy). -/
def orFalsy (o : Option String) (dflt : String) : String :=
  match o with
  | some s => if s = "" then dflt else s
  | none => dflt

/-- JavaScript `o ?? 0` followed by `Number` for an optional number. -/
def numOrZero (o : Option ℚ) : ℚ :=
  match o with
  | some q => q
  | none => 0

/-- Embeds the per-product body of `ResultsUIBuilder.#renderCards`: build a
card with image/title/link defaults, add rating, review count and stars when
`p.rating != null` (otherwise only the review count), call `build()`,
annotate `dataset.asin`, and propagate a truthy title into the image ALT. -/
def renderCard (p : ProductRecord) : Card :=
  let builder :=
    ((CardBuilder.init.setImage (orFalsy p.image "./example.jpg")).setDescription
        (orFalsy p.title "Untitled product")).setLink (orFalsy p.url "#")
  let builder :=
    match p.rating with
    | some q =>
        (((builder.setRating (some q)).setReviewCount (numOrZero p.reviews)).setStars
          (.atom (.num (.fin q))))
    | none => builder.setReviewCount (numOrZero p.reviews)
  let el := builder.build
  let el := { el with asin := orFalsy p.asin "" }
  match p.title with
  | some t => if t = "" then el else { el with imageAlt := t }
  | none => el

/-!
## ResultsUIBuilder fluent setters (src/resultsBuilder.js)

The DOM container references and the click handler held by the builder do not
affect the setter semantics and are omitted from the state.
-/

/-- The value-carrying state of a `ResultsUIBuilder` instance. -/
structure ResultsUIBuilder where
  iconSrc : JSValue
  label : JSValue
  keyword : JSValue
  count : JSNumber
  page : JSNumber
  totalPages : JSNumber
  products : List JSAtom
deriving DecidableEq, Repr

/-- The `ResultsUIBuilder` constructor defaults. -/
def ResultsUIBuilder.init : ResultsUIBuilder :=
  { iconSrc := .atom (.str "./shopping-cart.svg")
    label := .atom (.str "Amazon Products")
    keyword := .atom (.str "")
    count := .fin 0
    page := .fin 1
    totalPages := .fin 1
    products := [] }

/-- `setIcon(src) { this.iconSrc = src; }` -/
def ResultsUIBuilder.setIcon (b : ResultsUIBuilder) (src : JSValue) : ResultsUIBuilder :=
  { b with iconSrc := src }

/-- `setLabel(text) { this.label = text; }` -/
def ResultsUIBuilder.setLabel (b : ResultsUIBuilder) (text : JSValue) : ResultsUIBuilder :=
  { b with label := text }

/-- `setKeyword(kw) { this.keyword = kw ?? ""; }` -/
def ResultsUIBuilder.setKeyword (b : ResultsUIBuilder) (kw : JSValue) : ResultsUIBuilder :=
  { b with keyword :=
      match kw with
      | .atom .null => .atom (.str "")
      | .atom .undef => .atom (.str "")
      | v => v }

/-- `setCount(n) { this.count = Number(n) || 0; }` -/
def ResultsUIBuilder.setCount (b : ResultsUIBuilder) (n : JSValue) : ResultsUIBuilder :=
  { b with count := numOr (jsToNumber n) (.fin 0) }

/-- `setPage(p) { this.page = Math.max(1, Number(p) || 1); }` -/
def ResultsUIBuilder.setPage (b : ResultsUIBuilder) (p : JSValue) : ResultsUIBuilder :=
  { b with page := jsMax (.fin 1) (numOr (jsToNumber p) (.fin 1)) }

/-- `setProducts(p) { this.products = Array.isArray(p) ? p : []; }` -/
def ResultsUIBuilder.setProducts (b : ResultsUIBuilder) (p : JSValue) : ResultsUIBuilder :=
  { b with products :=
      match p with
      | .arr l => l
      | _ => [] }

/-- `setTotalPages(tp) { this.totalPages = Math.max(1, Number(tp) || 1); }` -/
def ResultsUIBuilder.setTotalPages (b : ResultsUIBuilder) (tp : JSValue) : ResultsUIBuilder :=
  { b with totalPages := jsMax (.fin 1) (numOr (jsToNumber tp) (.fin 1)) }

/-- One fluent setter invocation with its argument (for stating invariants
over arbitrary chains of setter calls). -/
inductive SetterCall where
  | icon (src : JSValue)
  | labelText (text : JSValue)
  | keyword (kw : JSValue)
  | count (n : JSValue)
  | page (p : JSValue)
  | products (p : JSValue)
  | totalPages (tp : JSValue)
deriving DecidableEq, Repr

/-- Apply one fluent setter call. -/
def applySetter (b : ResultsUIBuilder) : SetterCall → ResultsUIBuilder
  | .icon v => b.setIcon v
  | .labelText v => b.setLabel v
  | .keyword v => b.setKeyword v
  | .count v => b.setCount v
  | .page v => b.setPage v
  | .products v => b.setProducts v
  | .totalPages v => b.setTotalPages v

/-!
## Fetch client (src/apiModel.js)

`scrape(keyword, page, pages)` validates the keyword, then builds the query
with `URLSearchParams`: `keyword` always, `page`/`pages` only under
`x != null`.  The request is modelled by its ordered query parameter pairs
(the later percent-encoding of `URLSearchParams.toString` is injective on the
pairs and adds nothing to the claims).  In this program the `page`/`pages`
arguments are always finite integers or undefined — `main.js` guards `pages`
with `Number.isFinite` and `page` is an integer by construction — so they are
typed `Option Int`, with `none` standing for undefined (passed when the
parsed value was `NaN`).
-/

/-- Decidable equality of `Except` results (not derived by core). -/
instance {ε α : Type} [DecidableEq ε] [DecidableEq α] : DecidableEq (Except ε α) := fun a b =>
  match a, b with
  | .error x, .error y => if h : x = y then isTrue (by rw [h]) else isFalse (by simp [h])
  | .ok x, .ok y => if h : x = y then isTrue (by rw [h]) else isFalse (by simp [h])
  | .error _, .ok _ => isFalse (by simp)
  | .ok _, .error _ => isFalse (by simp)

/-- The error message thrown by `scrape` for a missing keyword. -/
def scrapeKeywordRequiredMsg : String := "scrape: keyword is required"

/-- The query parameter pairs set on the `URLSearchParams` by `scrape`:
`keyword` always, then `page` and `pages` each only under `x != null`
(stringified with `String(x)`). -/
def queryParams (keyword : String) (page pages : Option Int) :
    List (String × String) :=
  [("keyword", keyword)]
  ++ (match page with
      | some n => [("page", toString n)]
      | none => [])
  ++ (match pages with
      | some n => [("pages", toString n)]
      | none => [])

/-- Embeds `scrape` from `src/apiModel.js`: throw when
`!keyword || !String(keyword).trim()`, otherwise return the query parameter
pairs set on the `URLSearchParams`. -/
def scrape (keyword : String) (page pages : Option Int) :
    Except String (List (String × String)) :=
  if keyword = "" ∨ jsTrim keyword = "" then
    .error scrapeKeywordRequiredMsg
  else
    .ok (queryParams keyword page pages)

/-!
## Page controller (src/main.js)

`scrapingData` is the mutable session state.  The DOM interactions are
modelled by their observable outcome: the state after the handler, whether a
network request was issued (and with which query pairs), and which info-card
message is shown.  The outcome of the awaited fetch (success payload, or any
of network error / timeout / non-2xx status, which all surface as a thrown
error) is an input of the model.
-/

/-- The `scrapingData` record of `src/main.js`: `keyword`, `page` (current,
1-based), `pages` (server-side pages per request; `none` models the
`undefined` stored when the select parses to `NaN`), `totalPages` (last known
total). -/
structure SearchState where
  keyword : String
  page : Int
  pages : Option Int
  totalPages : Int
deriving DecidableEq, Repr

/-- The initial `scrapingData` value. -/
def initialSearchState : SearchState :=
  { keyword := "", page := 1, pages := some 1, totalPages := 1 }

/-- A successful response body, reduced to the field the controller state
update reads: `totalPages` (`none` models an absent or non-finite value,
which `Number.isFinite` rejects). -/
structure ScrapeResult where
  totalPages : Option Int
deriving DecidableEq, Repr

/-- Outcome of the awaited fetch: parsed payload, or a thrown error (network
failure, abort timeout, or non-2xx status). -/
inductive FetchOutcome where
  | ok (result : ScrapeResult)
  | err
deriving DecidableEq, Repr

/-- Messages the controller writes into the info card. -/
inductive UIMessage where
  | promptKeyword
  | retry
deriving DecidableEq, Repr

/-- Observable outcome of a controller event handler. -/
structure ControllerResult where
  state : SearchState
  fetchIssued : Bool
  request : Option (List (String × String))
  message : Option UIMessage
deriving DecidableEq, Repr

/-- Embeds `scrapeAmazon` from `src/main.js`: trim the keyword; reject with
the prompt message when empty; otherwise store the keyword, reset
`page = 1`, store `pages` (undefined when the select parses non-finite), call
`scrape`, and on success store `totalPages` (falling back to 1), on a thrown
error show the retry message.  `inputValue` is the raw text field value and
`pageSelectValue` the `Number.parseInt` result on the select (`none` models
`NaN`). -/
def scrapeAmazon (st : SearchState) (inputValue : String)
    (pageSelectValue : Option Int) (outcome : FetchOutcome) : ControllerResult :=
  let pagesVal := pageSelectValue
  let keyword := jsTrim inputValue
  if keyword = "" then
    { state := st, fetchIssued := false, request := none,
      message := some .promptKeyword }
  else
    let st1 : SearchState := { st with keyword := keyword, page := 1, pages := pagesVal }
    match scrape st1.keyword (some st1.page) st1.pages with
    | .error _ =>
        { state := st1, fetchIssued := false, request := none, message := some .retry }
    | .ok params =>
        match outcome with
        | .ok results =>
            { state :=
                { st1 with totalPages :=
                    match results.totalPages with
                    | some n => n
                    | none => 1 }
              fetchIssued := true, request := some params, message := none }
        | .err =>
            { state := st1, fetchIssued := true, request := some params,
              message := some .retry }

/-- The ignored-click outcome of `changePage` (an early `return`): no state
change, no request, no message. -/
def ignoredClick (st : SearchState) : ControllerResult :=
  { state := st, fetchIssued := false, request := none, message := none }

/-- The shared fetch tail of `changePage`: call `scrape` with the updated
state (a thrown validation error is caught like a failed fetch), re-render on
success, show the retry message on failure.  `changePage` does not update
`totalPages`. -/
def changePageFetch (st1 : SearchState) (outcome : FetchOutcome) : ControllerResult :=
  match scrape st1.keyword (some st1.page) st1.pages with
  | .error _ =>
      { state := st1, fetchIssued := false, request := none, message := some .retry }
  | .ok params =>
      match outcome with
      | .ok _ =>
          { state := st1, fetchIssued := true, request := some params, message := none }
      | .err =>
          { state := st1, fetchIssued := true, request := some params,
            message := some .retry }

/-- Embeds `changePage` from `src/main.js`.  `label` is the clicked item
text (`e.target.innerText`).  `["Prev", "Next"].includes(label)` selects the
control branch: Prev decrements only when `page > 1`, Next increments only
when `page < totalPages`, otherwise the click is ignored.  Any other label
goes through `parseInt`; the result is adopted unless it equals the current
page or is falsy (`NaN` or `0`). -/
def changePage (st : SearchState) (label : String) (outcome : FetchOutcome) :
    ControllerResult :=
  if label = "Prev" ∨ label = "Next" then
    if label = "Prev" ∧ 1 < st.page then
      changePageFetch { st with page := st.page - 1 } outcome
    else if label = "Next" ∧ st.page < st.totalPages then
      changePageFetch { st with page := st.page + 1 } outcome
    else
      ignoredClick st
  else
    match parseIntJS label with
    | none => ignoredClick st
    | some k =>
        if k = st.page ∨ k = 0 then ignoredClick st
        else changePageFetch { st with page := k } outcome

/-- Concrete product with an absent (`null`) rating, as the API returns for
listings without a rating. -/
def prodRatingAbsent : ProductRecord :=
  { title := some "Widget", image := none, url := none, asin := none,
    rating := none, reviews := some 7 }

/-- Concrete product with the valid rating `0`. -/
def prodRatingZero : ProductRecord :=
  { title := some "Widget", image := none, url := none, asin := none,
    rating := some 0, reviews := some 7 }

/-!
## Lemmas about the string and list helpers
-/

theorem trimRightChars_eq_rdropWhile (l : List Char) :
    trimRightChars l = List.rdropWhile jsWhitespace l := rfl

theorem data_jsTrim (s : String) :
    (jsTrim s).data = trimRightChars (trimLeftChars s.data) := rfl

theorem dropWhile_head?_false {α : Type} {p : α → Bool} {c : α} :
    ∀ {l : List α}, (l.dropWhile p).head? = some c → p c = false := by
  intro l
  induction l with
  | nil => intro h; simp at h
  | cons a t ih =>
      intro h
      rw [List.dropWhile_cons] at h
      by_cases hpa : p a = true
      · rw [if_pos hpa] at h
        exact ih h
      · rw [if_neg hpa] at h
        simp at h
        rw [← h]
        simpa using hpa

theorem trimLeft_trimRight_trimLeft (l : List Char) :
    trimLeftChars (trimRightChars (trimLeftChars l)) =
      trimRightChars (trimLeftChars l) := by
  rcases h : trimRightChars (trimLeftChars l) with _ | ⟨c, cs⟩
  · simp [trimLeftChars]
  · have hpre : trimRightChars (trimLeftChars l) <+: trimLeftChars l := by
      rw [trimRightChars_eq_rdropWhile]
      exact List.rdropWhile_prefix _ _
    rw [h] at hpre
    obtain ⟨t, ht⟩ := hpre
    have hhead : (trimLeftChars l).head? = some c := by
      rw [← ht]
      rfl
    have hc : jsWhitespace c = false := dropWhile_head?_false hhead
    unfold trimLeftChars
    rw [List.dropWhile_cons, if_neg (by simp [hc])]

theorem jsTrim_idem (s : String) : jsTrim (jsTrim s) = jsTrim s := by
  show String.mk
      (trimRightChars (trimLeftChars (trimRightChars (trimLeftChars s.data)))) =
    String.mk (trimRightChars (trimLeftChars s.data))
  rw [trimLeft_trimRight_trimLeft, trimRightChars_eq_rdropWhile,
    trimRightChars_eq_rdropWhile, List.rdropWhile_idempotent]

theorem jsTrim_empty : jsTrim "" = "" := rfl

theorem mem_intRange {x a b : Int} : x ∈ intRange a b ↔ a ≤ x ∧ x ≤ b := by
  unfold intRange
  simp only [List.mem_map, List.mem_range]
  constructor
  · rintro ⟨i, hi, rfl⟩
    omega
  · rintro ⟨h1, h2⟩
    exact ⟨(x - a).toNat, by omega, by omega⟩

theorem intRange_nodup (a b : Int) : (intRange a b).Nodup := by
  unfold intRange
  apply List.Nodup.map _ (List.nodup_range _)
  intro i j hij
  dsimp only at hij
  omega

/-!
## Pagination lemmas
-/

theorem numberedTargets_append (l1 l2 : List PageItem) :
    numberedTargets (l1 ++ l2) = numberedTargets l1 ++ numberedTargets l2 :=
  List.filterMap_append _ _ _

theorem filterMap_numbered (g : Int → String) (b : Int → Bool) :
    ∀ l : List Int,
      List.filterMap
        ((fun it =>
          match it with
          | PageItem.numbered t _ _ => some t
          | _ => none) ∘ fun p => PageItem.numbered p (g p) (b p)) l = l := by
  intro l
  induction l with
  | nil => rfl
  | cons x xs ih =>
      rw [List.filterMap_cons]
      dsimp only [Function.comp]
      rw [ih]

theorem numberedTargets_buildPageList (c t n : Int) :
    numberedTargets (buildPageList c t n) =
      1 :: (intRange (max 2 (c - n)) (min (t - 1) (c + n))
        ++ (if 1 < t then [t] else [])) := by
  unfold buildPageList
  simp only [numberedTargets_append]
  split_ifs with h1 h2 h3 <;>
    simp [numberedTargets, List.filterMap_cons, filterMap_numbered]

theorem jsClamp_eq_specClamp (total n : Int) (h : 1 ≤ total) :
    jsClamp total n = specClamp n 1 total := by
  unfold jsClamp specClamp
  omega

/-- C1: for every `total ≥ 1`, every `current`, and `neighbors = 1`, the
pagination window calculator `#buildPageList` emits exactly the item sequence
described by the specification algorithm (`specWindow`): Prev with clamped
target and `disabled` iff `current ≤ 1`; page 1 with `current` iff
`current = 1`; an ellipsis iff `max(2, current - 1) > 2`; the window pages in
increasing order flagged at `current`; an ellipsis iff
`min(total - 1, current + 1) < total - 1`; page `total` iff `total > 1`; Next
with clamped target and `disabled` iff `current ≥ total`. -/
theorem buildPageList_matches_spec (current total : Int) (h : 1 ≤ total) :
    buildPageList current total 1 = specWindow current total 1 := by
  unfold buildPageList specWindow
  rw [jsClamp_eq_specClamp total (current - 1) h, jsClamp_eq_specClamp total (current + 1) h]

/-- Witness for C1 at `current = 3`, `total = 10`. -/
theorem buildPageList_matches_spec_witness :
    buildPageList 3 10 1 = specWindow 3 10 1 :=
  buildPageList_matches_spec 3 10 (by decide)

/-- C3: the three concrete example windows of the specification:
`(1, 1)`, `(5, 10, 1)` and `(1, 10, 1)`. -/
theorem buildPageList_examples :
    buildPageList 1 1 1 =
      [.control 1 "Prev" true, .numbered 1 "1" true, .control 1 "Next" true]
    ∧ buildPageList 5 10 1 =
      [.control 4 "Prev" false, .numbered 1 "1" false, .ellipsis,
       .numbered 4 "4" false, .numbered 5 "5" true, .numbered 6 "6" false,
       .ellipsis, .numbered 10 "10" false, .control 6 "Next" false]
    ∧ buildPageList 1 10 1 =
      [.control 1 "Prev" true, .numbered 1 "1" true, .numbered 2 "2" false,
       .ellipsis, .numbered 10 "10" false, .control 2 "Next" false] := by
  refine ⟨by decide, by decide, by decide⟩

/-- C2: for `total ≥ 1` and `current ∈ [1, total]`, among the numbered
(non-control, non-ellipsis) page items of the window exactly one targets
page 1, exactly one targets page `total` when `total > 1`, and no target
repeats; the Prev/Next controls — which the claim excepts as the only
possible aliases of an edge value — are exactly the items excluded by
`numberedTargets`. -/
theorem buildPageList_edge_pages_once (current total : Int) (h1 : 1 ≤ total)
    (h2 : 1 ≤ current) (h3 : current ≤ total) :
    (numberedTargets (buildPageList current total 1)).count 1 = 1
    ∧ (1 < total → (numberedTargets (buildPageList current total 1)).count total = 1)
    ∧ (numberedTargets (buildPageList current total 1)).Nodup := by
  rw [numberedTargets_buildPageList]
  have hW : ∀ x : Int,
      x ∈ intRange (max 2 (current - 1)) (min (total - 1) (current + 1)) →
        2 ≤ x ∧ x ≤ total - 1 := by
    intro x hx
    have h := mem_intRange.mp hx
    omega
  have h1W : (1 : Int) ∉ intRange (max 2 (current - 1)) (min (total - 1) (current + 1)) := by
    intro hx
    have := hW 1 hx
    omega
  have htW : total ∉ intRange (max 2 (current - 1)) (min (total - 1) (current + 1)) := by
    intro hx
    have := hW total hx
    omega
  have hnodupW := intRange_nodup (max 2 (current - 1)) (min (total - 1) (current + 1))
  by_cases ht : 1 < total
  · rw [if_pos ht]
    refine ⟨?_, fun _ => ?_, ?_⟩
    · simp [List.count_cons, List.count_append, List.count_eq_zero.mpr h1W]
      omega
    · simp [List.count_cons, List.count_append, List.count_eq_zero.mpr htW]
      omega
    · refine List.nodup_cons.mpr
        ⟨?_, List.nodup_append.mpr ⟨hnodupW, List.nodup_singleton _, ?_⟩⟩
      · simp
        exact ⟨h1W, by omega⟩
      · intro a haW haL
        simp at haL
        subst haL
        exact htW haW
  · rw [if_neg ht]
    refine ⟨?_, fun hcon => absurd hcon ht, ?_⟩
    · simp [List.count_cons, List.count_append, List.count_eq_zero.mpr h1W]
    · exact List.nodup_cons.mpr ⟨by simp [h1W], by simp [hnodupW]⟩

/-- Witness for C2 at `current = 3`, `total = 7`. -/
theorem buildPageList_edge_pages_once_witness :
    (numberedTargets (buildPageList 3 7 1)).count 1 = 1
    ∧ ((1 : Int) < 7 → (numberedTargets (buildPageList 3 7 1)).count 7 = 1)
    ∧ (numberedTargets (buildPageList 3 7 1)).Nodup :=
  buildPageList_edge_pages_once 3 7 (by decide) (by decide) (by decide)

/-!
## Fetch client and controller lemmas
-/

theorem mem_queryParams_keyword (kw : String) (p pg : Option Int) :
    ("keyword", kw) ∈ queryParams kw p pg := by
  cases p <;> cases pg <;> simp [queryParams]

theorem mem_queryParams_page (kw : String) (pg : Option Int) (n : Int) :
    ("page", toString n) ∈ queryParams kw (some n) pg := by
  cases pg <;> simp [queryParams]

theorem mem_queryParams_pages (kw : String) (p : Option Int) (n : Int) :
    ("pages", toString n) ∈ queryParams kw p (some n) := by
  cases p <;> simp [queryParams]

theorem not_mem_queryParams_pages (kw : String) (p : Option Int) (v : String) :
    ("pages", v) ∉ queryParams kw p none := by
  cases p <;> simp [queryParams]

theorem scrape_ok_params {keyword : String} {page pages : Option Int}
    {ps : List (String × String)} (h : scrape keyword page pages = .ok ps) :
    ps = queryParams keyword page pages := by
  unfold scrape at h
  by_cases hk : keyword = "" ∨ jsTrim keyword = ""
  · rw [if_pos hk] at h
    exact absurd h (by simp)
  · rw [if_neg hk] at h
    injection h with h2
    exact h2.symm

theorem scrapeAmazon_request {st : SearchState} {inputValue : String}
    {psv : Option Int} {outcome : FetchOutcome} {ps : List (String × String)}
    (h : (scrapeAmazon st inputValue psv outcome).request = some ps) :
    ps = queryParams (jsTrim inputValue) (some 1) psv := by
  unfold scrapeAmazon at h
  by_cases hk : jsTrim inputValue = ""
  · simp [hk] at h
  · rw [if_neg hk] at h
    dsimp only at h
    rcases hs : scrape (jsTrim inputValue) (some 1) psv with msg | params
    · rw [hs] at h
      simp at h
    · rw [hs] at h
      have hps := scrape_ok_params hs
      cases outcome with
      | ok results =>
          simp at h
          rw [← h]
          exact hps
      | err =>
          simp at h
          rw [← h]
          exact hps

theorem changePageFetch_request {st1 : SearchState} {outcome : FetchOutcome}
    {ps : List (String × String)}
    (h : (changePageFetch st1 outcome).request = some ps) :
    ps = queryParams st1.keyword (some st1.page) st1.pages := by
  unfold changePageFetch at h
  rcases hs : scrape st1.keyword (some st1.page) st1.pages with msg | params
  · rw [hs] at h
    simp at h
  · rw [hs] at h
    have hps := scrape_ok_params hs
    cases outcome with
    | ok results =>
        simp at h
        rw [← h]
        exact hps
    | err =>
        simp at h
        rw [← h]
        exact hps

theorem changePage_request {st : SearchState} {label : String}
    {outcome : FetchOutcome} {ps : List (String × String)}
    (h : (changePage st label outcome).request = some ps) :
    ∃ n : Int, ps = queryParams st.keyword (some n) st.pages := by
  unfold changePage at h
  by_cases hc : label = "Prev" ∨ label = "Next"
  · rw [if_pos hc] at h
    by_cases hp : label = "Prev" ∧ 1 < st.page
    · rw [if_pos hp] at h
      exact ⟨st.page - 1, changePageFetch_request h⟩
    · rw [if_neg hp] at h
      by_cases hn : label = "Next" ∧ st.page < st.totalPages
      · rw [if_pos hn] at h
        exact ⟨st.page + 1, changePageFetch_request h⟩
      · rw [if_neg hn] at h
        simp [ignoredClick] at h
  · rw [if_neg hc] at h
    rcases hk : parseIntJS label with _ | k
    · rw [hk] at h
      simp [ignoredClick] at h
    · rw [hk] at h
      dsimp only at h
      by_cases he : k = st.page ∨ k = 0
      · rw [if_pos he] at h
        simp [ignoredClick] at h
      · rw [if_neg he] at h
        exact ⟨k, changePageFetch_request h⟩

theorem scrape_ok_of_keyword (kw : String) (h : jsTrim kw ≠ "") (p pg : Option Int) :
    scrape kw p pg = .ok (queryParams kw p pg) := by
  unfold scrape
  rw [if_neg]
  intro hor
  rcases hor with h1 | h2
  · rw [h1] at h
    exact h jsTrim_empty
  · exact h h2

theorem changePageFetch_issues (st1 : SearchState) (outcome : FetchOutcome)
    (h : jsTrim st1.keyword ≠ "") :
    (changePageFetch st1 outcome).state = st1
    ∧ (changePageFetch st1 outcome).fetchIssued = true := by
  unfold changePageFetch
  rw [scrape_ok_of_keyword st1.keyword h (some st1.page) st1.pages]
  cases outcome with
  | ok results => exact ⟨rfl, rfl⟩
  | err => exact ⟨rfl, rfl⟩

/-- C8: every fetch issued by the controller carries the keyword pair in its
query (the serializer url-encodes each pair), carries the current page as its
decimal string, and carries the `pages` parameter exactly when the parsed
page-count was finite (`some n`, sent as its decimal string); when it was
absent or non-finite (`none`, since `main.js` maps a non-finite parse to
`undefined`), no `pages` pair appears. -/
theorem requestQueryShape :
    (∀ (st : SearchState) (inputValue : String) (psv : Option Int)
        (outcome : FetchOutcome) (ps : List (String × String)),
      (scrapeAmazon st inputValue psv outcome).request = some ps →
        ("keyword", jsTrim inputValue) ∈ ps
        ∧ ("page", toString (1 : Int)) ∈ ps
        ∧ (∀ n : Int, psv = some n → ("pages", toString n) ∈ ps)
        ∧ (psv = none → ∀ v : String, ("pages", v) ∉ ps))
    ∧ (∀ (st : SearchState) (label : String) (outcome : FetchOutcome)
        (ps : List (String × String)),
      (changePage st label outcome).request = some ps →
        ("keyword", st.keyword) ∈ ps
        ∧ (∃ n : Int, ("page", toString n) ∈ ps)
        ∧ (∀ n : Int, st.pages = some n → ("pages", toString n) ∈ ps)
        ∧ (st.pages = none → ∀ v : String, ("pages", v) ∉ ps)) := by
  constructor
  · intro st inputValue psv outcome ps h
    rw [scrapeAmazon_request h]
    refine ⟨mem_queryParams_keyword _ _ _, mem_queryParams_page _ _ _, ?_, ?_⟩
    · intro n hn
      rw [hn]
      exact mem_queryParams_pages _ _ _
    · intro hn v
      rw [hn]
      exact not_mem_queryParams_pages _ _ _
  · intro st label outcome ps h
    obtain ⟨n, hn⟩ := changePage_request h
    rw [hn]
    refine ⟨mem_queryParams_keyword _ _ _, ⟨n, mem_queryParams_page _ _ _⟩, ?_, ?_⟩
    · intro m hm
      rw [hm]
      exact mem_queryParams_pages _ _ _
    · intro hm v
      rw [hm]
      exact not_mem_queryParams_pages _ _ _

/-- Witness for C8: a concrete submit fetch with keyword and pages present. -/
theorem requestQueryShape_witness :
    ("keyword", "tv") ∈ [("keyword", "tv"), ("page", "1"), ("pages", "2")]
    ∧ ("pages", "2") ∈ [("keyword", "tv"), ("page", "1"), ("pages", "2")] := by
  have h := requestQueryShape.1 initialSearchState "tv" (some 2) .err
    [("keyword", "tv"), ("page", "1"), ("pages", "2")] (by decide)
  exact ⟨by decide, h.2.2.1 2 rfl⟩

/-- C7: a keyword that trims to empty is rejected before any network call:
the controller returns with the inline prompt message and an unchanged state
without issuing a fetch, and the fetch client itself throws for an empty or
whitespace-only keyword before building a request. -/
theorem emptyKeywordRejected :
    (∀ (st : SearchState) (inputValue : String) (psv : Option Int)
        (outcome : FetchOutcome), jsTrim inputValue = "" →
      scrapeAmazon st inputValue psv outcome =
        { state := st, fetchIssued := false, request := none,
          message := some .promptKeyword })
    ∧ (∀ (keyword : String) (page pages : Option Int), jsTrim keyword = "" →
      scrape keyword page pages = .error scrapeKeywordRequiredMsg) := by
  constructor
  · intro st inputValue psv outcome h
    unfold scrapeAmazon
    rw [if_pos h]
  · intro kw page pages h
    unfold scrape
    rw [if_pos (Or.inr h)]

/-- Witness for C7 on whitespace-only keywords. -/
theorem emptyKeywordRejected_witness :
    scrapeAmazon initialSearchState "   " none .err =
      { state := initialSearchState, fetchIssued := false, request := none,
        message := some .promptKeyword }
    ∧ scrape " " (some 1) none = .error scrapeKeywordRequiredMsg :=
  ⟨emptyKeywordRejected.1 initialSearchState "   " none .err (by decide),
   emptyKeywordRejected.2 " " (some 1) none (by decide)⟩

/-- C5 counterexample: a failing submit (fetch error, retry message shown)
does NOT leave the prior state untouched — the keyword, current page and
requested page count have already been overwritten before the fetch, so
after the failure they differ from their prior values `"old"`, `3`,
`some 2`. -/
theorem submitFailureState_counterexample :
    (scrapeAmazon { keyword := "old", page := 3, pages := some 2, totalPages := 7 } "new" (some 1) .err).message = some .retry
    ∧ (scrapeAmazon { keyword := "old", page := 3, pages := some 2, totalPages := 7 } "new" (some 1) .err).fetchIssued = true
    ∧ (scrapeAmazon { keyword := "old", page := 3, pages := some 2, totalPages := 7 } "new" (some 1) .err).state.keyword ≠ "old"
    ∧ (scrapeAmazon { keyword := "old", page := 3, pages := some 2, totalPages := 7 } "new" (some 1) .err).state.page ≠ 3
    ∧ (scrapeAmazon { keyword := "old", page := 3, pages := some 2, totalPages := 7 } "new" (some 1) .err).state.pages ≠ some 2 := by
  refine ⟨by decide, by decide, by decide, by decide, by decide⟩

/-- C5 (amended): on a submit whose fetch fails, the controller shows the
generic retry message; `totalPages` keeps its prior value, but `keyword`,
`currentPage` and `requestedPageCount` retain the values assigned for the
failed submit (the trimmed input, `1`, and the parsed page count). -/
theorem submitFailureState (st : SearchState) (inputValue : String)
    (psv : Option Int) (h : jsTrim inputValue ≠ "") :
    (scrapeAmazon st inputValue psv .err).state =
      { keyword := jsTrim inputValue, page := 1, pages := psv,
        totalPages := st.totalPages }
    ∧ (scrapeAmazon st inputValue psv .err).message = some .retry
    ∧ (scrapeAmazon st inputValue psv .err).fetchIssued = true := by
  have hidem : jsTrim (jsTrim inputValue) = jsTrim inputValue := jsTrim_idem inputValue
  unfold scrapeAmazon
  rw [if_neg h]
  dsimp only
  have hsc : scrape (jsTrim inputValue) (some 1) psv =
      .ok (queryParams (jsTrim inputValue) (some 1) psv) := by
    unfold scrape
    rw [if_neg]
    intro hor
    rcases hor with h1 | h2
    · exact h h1
    · rw [hidem] at h2
      exact h h2
  rw [hsc]
  exact ⟨rfl, rfl, rfl⟩

/-- Witness for the amended C5 at a concrete failing submit. -/
theorem submitFailureState_witness :
    (scrapeAmazon { keyword := "old", page := 3, pages := some 2, totalPages := 7 } "new" (some 1) .err).state =
      { keyword := "new", page := 1, pages := some 1, totalPages := 7 } := by
  have h := submitFailureState { keyword := "old", page := 3, pages := some 2, totalPages := 7 } "new" (some 1) (by decide)
  exact h.1

/-- C6: for a click on a pagination item in a reachable state
(`1 ≤ page ≤ totalPages`, non-empty stored keyword), the label is
interpreted by exact, case-sensitive match: "Prev" decrements and "Next"
increments the page exactly when the result stays within
`[1, totalPages]` (otherwise the click is ignored with no fetch and no state
change); any other label is parsed as an integer page number (pagination
labels are positive numerals, hence `1 ≤ k`) and adopted with a fetch
exactly when it differs from the current page. -/
theorem navigationClick (st : SearchState) (label : String) (outcome : FetchOutcome)
    (hlo : 1 ≤ st.page) (hhi : st.page ≤ st.totalPages) (hkw : jsTrim st.keyword ≠ "") :
    (label = "Prev" →
      ((1 ≤ st.page - 1 ∧ st.page - 1 ≤ st.totalPages) →
        (changePage st label outcome).state.page = st.page - 1
        ∧ (changePage st label outcome).fetchIssued = true)
      ∧ (¬(1 ≤ st.page - 1 ∧ st.page - 1 ≤ st.totalPages) →
        changePage st label outcome = ignoredClick st))
    ∧ (label = "Next" →
      ((1 ≤ st.page + 1 ∧ st.page + 1 ≤ st.totalPages) →
        (changePage st label outcome).state.page = st.page + 1
        ∧ (changePage st label outcome).fetchIssued = true)
      ∧ (¬(1 ≤ st.page + 1 ∧ st.page + 1 ≤ st.totalPages) →
        changePage st label outcome = ignoredClick st))
    ∧ (label ≠ "Prev" → label ≠ "Next" →
      ∀ k : Int, parseIntJS label = some k → 1 ≤ k →
        (k ≠ st.page →
          (changePage st label outcome).state.page = k
          ∧ (changePage st label outcome).fetchIssued = true)
        ∧ (k = st.page → changePage st label outcome = ignoredClick st)) := by
  refine ⟨?_, ?_, ?_⟩
  · intro hP
    subst hP
    unfold changePage
    rw [if_pos (Or.inl rfl)]
    constructor
    · intro hbound
      have hgt : (1 : Int) < st.page := by omega
      rw [if_pos ⟨rfl, hgt⟩]
      have hfetch := changePageFetch_issues { st with page := st.page - 1 } outcome hkw
      exact ⟨by rw [hfetch.1], hfetch.2⟩
    · intro hbound
      have hle : ¬ (1 : Int) < st.page := by omega
      rw [if_neg (fun hand => hle hand.2)]
      rw [if_neg (fun hand => absurd hand.1 (by decide))]
  · intro hN
    subst hN
    unfold changePage
    rw [if_pos (Or.inr rfl)]
    rw [if_neg (fun hand => absurd hand.1 (by decide))]
    constructor
    · intro hbound
      have hlt : st.page < st.totalPages := by omega
      rw [if_pos ⟨rfl, hlt⟩]
      have hfetch := changePageFetch_issues { st with page := st.page + 1 } outcome hkw
      exact ⟨by rw [hfetch.1], hfetch.2⟩
    · intro hbound
      have hge : ¬ st.page < st.totalPages := by omega
      rw [if_neg (fun hand => hge hand.2)]
  · intro hnP hnN k hk hk1
    unfold changePage
    rw [if_neg (fun hor => by rcases hor with h1 | h2; exact hnP h1; exact hnN h2)]
    rw [hk]
    dsimp only
    constructor
    · intro hne
      rw [if_neg (fun hor => by rcases hor with h1 | h2; exact hne h1; omega)]
      have hfetch := changePageFetch_issues { st with page := k } outcome hkw
      exact ⟨by rw [hfetch.1], hfetch.2⟩
    · intro heq
      rw [if_pos (Or.inl heq)]

/-- Witness for C6: a Prev click at page 2 of 5 fetches page 1. -/
theorem navigationClick_witness :
    (changePage { keyword := "tv", page := 2, pages := some 1, totalPages := 5 } "Prev" .err).state.page = 1
    ∧ (changePage { keyword := "tv", page := 2, pages := some 1, totalPages := 5 } "Prev" .err).fetchIssued = true := by
  have h := navigationClick { keyword := "tv", page := 2, pages := some 1, totalPages := 5 }
    "Prev" .err (by decide) (by decide) (by decide)
  exact (h.1 rfl).1 (by decide)

/-- C4 (evaluating the code at the failing input): a ProductRecord with an
absent (`null`) rating STILL gets the rating/star/review block — the card
shows an empty star list with the rating text `(0)` and the review count —
because `CardBuilder`'s constructor initialises `this.rating = 0` and the
guard `this.rating != null` in `build()` is then always true; a record with
`rating = 0` renders the block as the claim states.  The claim (and the
code's own comments) say the block must be absent in the first case. -/
theorem ratingAbsentStillRendersBlock :
    (renderCard prodRatingAbsent).score = some ([], 0)
    ∧ (renderCard prodRatingAbsent).reviewsBlock = some 7
    ∧ (renderCard prodRatingZero).score.isSome = true
    ∧ (renderCard prodRatingZero).reviewsBlock.isSome = true := by
  refine ⟨by decide, by decide, by decide, by decide⟩

theorem rat_floor_cast_self {r : ℚ} (h : r.den = 1) :
    ((Rat.floor r : Int) : ℚ) = r := by
  rw [Rat.floor, if_pos h]
  exact Rat.coe_int_num_of_den_eq_one h

theorem rat_den_one_of_floor_cast {r : ℚ} (h : ((Rat.floor r : Int) : ℚ) = r) :
    r.den = 1 := by
  rw [← h]
  exact Rat.den_intCast _

/-- C10: `CardBuilder.setStars` stores an array argument verbatim as the
icon list; for a (finite) numeric argument `r` it sets exactly
`floor(clamp(r, 0, 5))` full-star icons followed by exactly one half-star
icon iff `clamp(r, 0, 5)` is not an integer (denominator 1 characterises
integrality of a rational); a non-finite, non-array argument clears the
icon list. -/
theorem setStarsSpec (b : CardBuilder) (v : JSValue) :
    (∀ elems : List JSAtom, v = .arr elems → (CardBuilder.setStars b v).stars = elems)
    ∧ (∀ q : ℚ, v = .atom (.num (.fin q)) →
        (CardBuilder.setStars b v).stars =
          List.replicate (Rat.floor (min 5 (max 0 q))).toNat (.str starFullSrc)
            ++ (if (min 5 (max 0 q)).den = 1 then [] else [.str starHalfSrc]))
    ∧ ((∀ elems : List JSAtom, v ≠ .arr elems) → (jsToNumber v).isFiniteB = false →
        (CardBuilder.setStars b v).stars = []) := by
  refine ⟨?_, ?_, ?_⟩
  · intro elems hv
    subst hv
    rfl
  · intro q hv
    subst hv
    unfold CardBuilder.setStars
    dsimp only [jsToNumber]
    congr 1
    by_cases hden : (min 5 (max 0 q)).den = 1
    · rw [if_pos hden]
      have hcast := rat_floor_cast_self hden
      have hfalse :
          (decide (min 5 (max 0 q) < 5)
            && decide (¬ min 5 (max 0 q) = ((Rat.floor (min 5 (max 0 q)) : Int) : ℚ)))
            = false := by
        simp [hcast]
      rw [hfalse]
      rfl
    · rw [if_neg hden]
      have hne : ¬ min 5 (max 0 q) = ((Rat.floor (min 5 (max 0 q)) : Int) : ℚ) :=
        fun he => hden (rat_den_one_of_floor_cast he.symm)
      have hne5 : min 5 (max 0 q) ≠ 5 := by
        intro h5
        apply hden
        rw [h5]
        rfl
      have hlt : min 5 (max 0 q) < 5 := lt_of_le_of_ne (min_le_left _ _) hne5
      have htrue :
          (decide (min 5 (max 0 q) < 5)
            && decide (¬ min 5 (max 0 q) = ((Rat.floor (min 5 (max 0 q)) : Int) : ℚ)))
            = true := by
        simp [hlt, hne]
      rw [htrue]
      rfl
  · intro harr hfin
    cases v with
    | arr elems => exact absurd rfl (harr elems)
    | atom a =>
        unfold CardBuilder.setStars
        dsimp only
        rcases hjs : jsToNumber (.atom a) with _ | _ | _ | q
        · rfl
        · rfl
        · rfl
        · rw [hjs] at hfin
          exact absurd hfin (by simp [JSNumber.isFiniteB])

/-- Witness for C10 at the rating 4.5 (four full stars and a half star). -/
theorem setStarsSpec_witness :
    (CardBuilder.setStars CardBuilder.init (.atom (.num (.fin (mkRat 9 2))))).stars =
      List.replicate (Rat.floor (min 5 (max 0 (mkRat 9 2)))).toNat (.str starFullSrc)
        ++ (if (min 5 (max 0 (mkRat 9 2))).den = 1 then [] else [.str starHalfSrc]) :=
  (setStarsSpec CardBuilder.init (.atom (.num (.fin (mkRat 9 2))))).2.1 (mkRat 9 2) rfl

/-- C9 counterexample: `setCount(Infinity)` stores `Infinity`, which is not
a finite number, and `setKeyword(42)` stores the number `42`, which is not a
string — refuting the claimed normalisations for `setCount` (finite) and
`setKeyword` (string). -/
theorem setterNormalization_counterexample :
    (ResultsUIBuilder.init.setCount (.atom (.num .inf))).count.isFiniteB = false
    ∧ isStringJS (ResultsUIBuilder.init.setKeyword (.atom (.num (.fin 42)))).keyword = false := by
  refine ⟨by decide, by decide⟩

theorem page_norm_ge_one (x : JSNumber) :
    JSNumber.leB (.fin 1) (jsMax (.fin 1) (numOr x (.fin 1))) = true := by
  cases x with
  | nan => decide
  | inf => decide
  | neginf => decide
  | fin q =>
      by_cases h0 : q = 0
      · subst h0
        decide
      · have htr : (JSNumber.fin q).truthy = true := by
          simp [JSNumber.truthy, h0]
        simp only [numOr, htr, if_true]
        simp [jsMax, JSNumber.leB, le_max_left]

theorem page_norm_one (x : JSNumber)
    (h : x = .nan ∨ x = .neginf ∨ ∃ q : ℚ, q ≤ 0 ∧ x = .fin q) :
    jsMax (.fin 1) (numOr x (.fin 1)) = .fin 1 := by
  rcases h with rfl | rfl | ⟨q, hq, rfl⟩
  · decide
  · decide
  · by_cases h0 : q = 0
    · subst h0
      decide
    · have htr : (JSNumber.fin q).truthy = true := by
        simp [JSNumber.truthy, h0]
      simp only [numOr, htr, if_true]
      simp [jsMax, max_eq_left (le_trans hq zero_le_one)]

theorem count_norm_ne_nan (x : JSNumber) : numOr x (.fin 0) ≠ .nan := by
  cases x with
  | nan => decide
  | inf => decide
  | neginf => decide
  | fin q =>
      unfold numOr
      split
      · simp
      · simp

theorem applySetter_bounds (b : ResultsUIBuilder) (c : SetterCall)
    (hp : JSNumber.leB (.fin 1) b.page = true)
    (ht : JSNumber.leB (.fin 1) b.totalPages = true) :
    JSNumber.leB (.fin 1) (applySetter b c).page = true
    ∧ JSNumber.leB (.fin 1) (applySetter b c).totalPages = true := by
  cases c with
  | icon v => exact ⟨hp, ht⟩
  | labelText v => exact ⟨hp, ht⟩
  | keyword v => exact ⟨hp, ht⟩
  | count v => exact ⟨hp, ht⟩
  | page v => exact ⟨page_norm_ge_one (jsToNumber v), ht⟩
  | products v => exact ⟨hp, ht⟩
  | totalPages v => exact ⟨hp, page_norm_ge_one (jsToNumber v)⟩

theorem foldl_setters_bounds (calls : List SetterCall) :
    ∀ b : ResultsUIBuilder,
      JSNumber.leB (.fin 1) b.page = true →
      JSNumber.leB (.fin 1) b.totalPages = true →
      JSNumber.leB (.fin 1) ((calls.foldl applySetter b).page) = true
      ∧ JSNumber.leB (.fin 1) ((calls.foldl applySetter b).totalPages) = true := by
  induction calls with
  | nil => intro b hp ht; exact ⟨hp, ht⟩
  | cons c cs ih =>
      intro b hp ht
      have h := applySetter_bounds b c hp ht
      exact ih (applySetter b c) h.1 h.2

/-- C9 (amended): after `setPage`/`setTotalPages` the stored value is a
non-NaN number `≥ 1` (non-numeric, zero, or negative input becomes exactly
1; `+Infinity` is kept); after `setCount` the stored count is a number that
is never NaN (but `Infinity` passes through, so it need not be finite);
after `setProducts` the stored products is an array (non-array input becomes
the empty array); after `setKeyword` the stored keyword is the argument
itself except null/undefined, which become `""` (a non-string argument is
stored unchanged); hence `build()` always runs with `page ≥ 1` and
`totalPages ≥ 1`, stated as an invariant over every chain of setter calls
from the constructor state. -/
theorem setterNormalization (b : ResultsUIBuilder) (v : JSValue) :
    (JSNumber.leB (.fin 1) (b.setPage v).page = true
      ∧ ((jsToNumber v = .nan ∨ jsToNumber v = .neginf
            ∨ ∃ q : ℚ, q ≤ 0 ∧ jsToNumber v = .fin q) →
          (b.setPage v).page = .fin 1))
    ∧ (JSNumber.leB (.fin 1) (b.setTotalPages v).totalPages = true
      ∧ ((jsToNumber v = .nan ∨ jsToNumber v = .neginf
            ∨ ∃ q : ℚ, q ≤ 0 ∧ jsToNumber v = .fin q) →
          (b.setTotalPages v).totalPages = .fin 1))
    ∧ (b.setCount v).count ≠ .nan
    ∧ ((∀ l : List JSAtom, (b.setProducts (.arr l)).products = l)
      ∧ ((∀ l : List JSAtom, v ≠ .arr l) → (b.setProducts v).products = []))
    ∧ (((v = .atom .null ∨ v = .atom .undef) →
          (b.setKeyword v).keyword = .atom (.str ""))
      ∧ (¬(v = .atom .null ∨ v = .atom .undef) → (b.setKeyword v).keyword = v))
    ∧ (∀ calls : List SetterCall,
        JSNumber.leB (.fin 1) ((calls.foldl applySetter ResultsUIBuilder.init).page) = true
        ∧ JSNumber.leB (.fin 1)
            ((calls.foldl applySetter ResultsUIBuilder.init).totalPages) = true) := by
  refine ⟨⟨page_norm_ge_one _, fun h => page_norm_one _ h⟩,
    ⟨page_norm_ge_one _, fun h => page_norm_one _ h⟩,
    count_norm_ne_nan _, ⟨fun l => rfl, ?_⟩, ⟨?_, ?_⟩, ?_⟩
  · intro hna
    unfold ResultsUIBuilder.setProducts
    cases v with
    | atom a => rfl
    | arr l => exact absurd rfl (hna l)
  · intro hv
    unfold ResultsUIBuilder.setKeyword
    rcases hv with rfl | rfl
    · rfl
    · rfl
  · intro hv
    unfold ResultsUIBuilder.setKeyword
    cases v with
    | arr l => rfl
    | atom a =>
        cases a with
        | undef => exact absurd (Or.inr rfl) hv
        | null => exact absurd (Or.inl rfl) hv
        | bool x => rfl
        | num x => rfl
        | str s => rfl
        | obj => rfl
  · intro calls
    exact foldl_setters_bounds calls ResultsUIBuilder.init (by decide) (by decide)

/-- Witness for the amended C9: a non-numeric page becomes 1 and a
non-numeric count is not NaN. -/
theorem setterNormalization_witness :
    (ResultsUIBuilder.init.setPage (.atom (.str "abc"))).page = .fin 1
    ∧ (ResultsUIBuilder.init.setCount (.atom (.str "abc"))).count ≠ .nan := by
  have h := setterNormalization ResultsUIBuilder.init (.atom (.str "abc"))
  exact ⟨h.1.2 (Or.inl (by decide)), h.2.2.1⟩
